import Mathlib

/-!
# Verification of the react-native-healthkit marshalling layer

Shallow embedding of `src/index.ios.tsx`: the boundary marshaller between
typed application calls and the native HealthKit bridge.  The native bridge
(`NativeModules.ReactNativeHealthkit`) is modelled as a structure of pure
response functions, and every operation returns, alongside its result, the
list of bridge calls it dispatched, in order.  JavaScript `Date` values are
modelled as `Option Int` (milliseconds since the epoch; `none` is the
JavaScript "Invalid Date", whose time value is NaN).  Promise rejection is
modelled with `Except`.
-/

namespace Healthkit

/-- A JavaScript `Date`: either a valid instant in milliseconds since the Unix
epoch, or the Invalid Date (`none`), which `new Date(s)` produces when `s` is
not parseable.  (`new Date` never throws on unparseable input.) -/
abbrev JSDate := Option Int

/-- A JavaScript exception / promise-rejection value. -/
abbrev JsError := String

/-! ## ISO-8601 date model

Modelled from the spec: dates cross the bridge as ISO8601 strings with
millisecond precision (`YYYY-MM-DDTHH:mm:ss.sssZ`, the format produced by
`Date.prototype.toISOString`); the JavaScript `Date` runtime itself is not
part of the repository's sources.  `formatISO` is the civil-from-days
rendering of a millisecond timestamp and `parseISO` parses exactly the
canonical millisecond-precision format, rejecting everything else. -/

/-- Whether `y` is a Gregorian leap year. -/
def isLeapYear (y : Int) : Bool :=
  y % 4 = 0 && (y % 100 ≠ 0 || y % 400 = 0)

/-- Number of days in month `m` of year `y` (`m` is 1-based). -/
def daysInMonth (y m : Int) : Int :=
  if m = 2 then (if isLeapYear y then 29 else 28)
  else if m = 4 || m = 6 || m = 9 || m = 11 then 30
  else 31

/-- Days since 1970-01-01 of the civil date `y-m-d` (Gregorian, proleptic). -/
def daysFromCivil (y m d : Int) : Int :=
  let y' := y - (if m ≤ 2 then 1 else 0)
  let era := (if 0 ≤ y' then y' else y' - 399).ediv 400
  let yoe := y' - era * 400
  let doy := (153 * (m + (if 2 < m then -3 else 9)) + 2).ediv 5 + d - 1
  let doe := yoe * 365 + yoe.ediv 4 - yoe.ediv 100 + doy
  era * 146097 + doe - 719468

/-- Civil date `(y, m, d)` of a count of days since 1970-01-01. -/
def civilFromDays (z : Int) : Int × Int × Int :=
  let z' := z + 719468
  let era := (if 0 ≤ z' then z' else z' - 146096).ediv 146097
  let doe := z' - era * 146097
  let yoe := (doe - doe.ediv 1460 + doe.ediv 36524 - doe.ediv 146096).ediv 365
  let y := yoe + era * 400
  let doy := doe - (365 * yoe + yoe.ediv 4 - yoe.ediv 100)
  let mp := (5 * doy + 2).ediv 153
  let d := doy - (153 * mp + 2).ediv 5 + 1
  let m := mp + (if mp < 10 then 3 else -9)
  (y + (if m ≤ 2 then 1 else 0), m, d)

/-- Left-pad the decimal rendering of a nonnegative integer to two digits. -/
def pad2 (n : Int) : String :=
  (if n < 10 then "0" else "") ++ toString n

/-- Left-pad the decimal rendering of a nonnegative integer to three digits. -/
def pad3 (n : Int) : String :=
  (if n < 10 then "00" else if n < 100 then "0" else "") ++ toString n

/-- Left-pad the decimal rendering of a nonnegative integer to four digits. -/
def pad4 (n : Int) : String :=
  (if n < 10 then "000" else if n < 100 then "00" else if n < 1000 then "0" else "")
    ++ toString n

/-- Render a millisecond timestamp as `Date.prototype.toISOString` does:
`YYYY-MM-DDTHH:mm:ss.sssZ` in UTC. -/
def formatISO (t : Int) : String :=
  let days := t.ediv 86400000
  let msod := t.emod 86400000
  let ymd := civilFromDays days
  let hh := msod.ediv 3600000
  let mi := (msod.emod 3600000).ediv 60000
  let ss := (msod.emod 60000).ediv 1000
  let ms := msod.emod 1000
  pad4 ymd.1 ++ "-" ++ pad2 ymd.2.1 ++ "-" ++ pad2 ymd.2.2 ++ "T" ++
    pad2 hh ++ ":" ++ pad2 mi ++ ":" ++ pad2 ss ++ "." ++ pad3 ms ++ "Z"

/-- The numeric value of a decimal digit character, if it is one. -/
def digitVal (c : Char) : Option Int :=
  if c.isDigit then some ((c.toNat : Int) - 48) else none

/-- Combine four digit characters into a number. -/
def num4 (a b c d : Char) : Option Int := do
  let a' ← digitVal a; let b' ← digitVal b; let c' ← digitVal c; let d' ← digitVal d
  pure (a' * 1000 + b' * 100 + c' * 10 + d')

/-- Combine three digit characters into a number. -/
def num3 (a b c : Char) : Option Int := do
  let a' ← digitVal a; let b' ← digitVal b; let c' ← digitVal c
  pure (a' * 100 + b' * 10 + c')

/-- Combine two digit characters into a number. -/
def num2 (a b : Char) : Option Int := do
  let a' ← digitVal a; let b' ← digitVal b
  pure (a' * 10 + b')

/-- Parse a canonical millisecond-precision ISO8601 UTC string
(`YYYY-MM-DDTHH:mm:ss.sssZ`) into milliseconds since the epoch; `none` for
anything unparseable (out-of-range calendar fields included). -/
def parseISO (s : String) : Option Int :=
  match s.data with
  | [y1, y2, y3, y4, '-', m1, m2, '-', d1, d2, 'T',
     h1, h2, ':', i1, i2, ':', s1, s2, '.', f1, f2, f3, 'Z'] => do
      let y ← num4 y1 y2 y3 y4
      let m ← num2 m1 m2
      let d ← num2 d1 d2
      let hh ← num2 h1 h2
      let mi ← num2 i1 i2
      let ss ← num2 s1 s2
      let ms ← num3 f1 f2 f3
      if 1 ≤ m && m ≤ 12 && 1 ≤ d && d ≤ daysInMonth y m &&
          hh ≤ 23 && mi ≤ 59 && ss ≤ 59 then
        pure (daysFromCivil y m d * 86400000 +
          hh * 3600000 + mi * 60000 + ss * 1000 + ms)
      else none
  | _ => none

/-- `new Date(s)` for a string argument: parse, Invalid Date on failure. -/
def newDate (s : String) : JSDate := parseISO s

/-- `Date.prototype.toISOString`: renders a valid date, throws a `RangeError`
on an Invalid Date. -/
def toISOString : JSDate → Except JsError String
  | none => .error "RangeError: Invalid time value"
  | some t => .ok (formatISO t)

/-! ## Data model

The wire and domain sample shapes.  `types.ts` is not among the sources;
the field list follows the `HKQuantitySample` interface of the repository's
type declarations (uuid, quantityType, quantity, unit, metadata, dates),
with `quantity` as an integer stand-in for the pass-through numeric value. -/

/-- A quantity sample as it arrives from the bridge: dates are wire strings. -/
structure QuantitySampleRaw where
  uuid : String
  quantityType : String
  quantity : Int
  unit : String
  metadata : List (String × String)
  startDate : String
  endDate : String
deriving DecidableEq, Repr

/-- A deserialized quantity sample: dates are JavaScript `Date` values. -/
structure QuantitySample where
  uuid : String
  quantityType : String
  quantity : Int
  unit : String
  metadata : List (String × String)
  startDate : JSDate
  endDate : JSDate
deriving DecidableEq, Repr

/-- `deserializeSample` (index.ios.tsx:80-86): spread the raw sample and
replace the two date strings with `new Date(...)` values. -/
def deserializeSample (sample : QuantitySampleRaw) : QuantitySample :=
  { uuid := sample.uuid
    quantityType := sample.quantityType
    quantity := sample.quantity
    unit := sample.unit
    metadata := sample.metadata
    startDate := newDate sample.startDate
    endDate := newDate sample.endDate }

/-- The `Except`-valued view of `deserializeSample`, recording which inputs
make it throw.  No subexpression of its body can throw — `new Date(s)`
returns an Invalid Date rather than throwing on unparseable input — so the
error branch is never taken. -/
def deserializeSampleE (sample : QuantitySampleRaw) : Except JsError QuantitySample :=
  .ok (deserializeSample sample)

/-- Modelled from the spec: serialization renders a sample's dates as ISO8601
strings with millisecond precision (no standalone serializer exists in
`index.ios.tsx`; `save` serializes dates with `toISOString`).  Serializing an
Invalid Date throws, as `toISOString` does. -/
def serializeSample (s : QuantitySample) : Except JsError QuantitySampleRaw := do
  let sd ← toISOString s.startDate
  let ed ← toISOString s.endDate
  pure { uuid := s.uuid
         quantityType := s.quantityType
         quantity := s.quantity
         unit := s.unit
         metadata := s.metadata
         startDate := sd
         endDate := ed }

/-- The optional nested date interval of a statistics response, generic in
the date representation (wire strings in the raw response, `Date` values
after normalization).  The source fields are `from`/`to`; `from` is a Lean
keyword and `to` is a reserved token, so the fields are `fromD`/`toD`. -/
structure DateInterval (α : Type) where
  fromD : α
  toD : α
deriving DecidableEq, Repr

/-- A raw statistics response from the bridge (`StatsResponseRaw`):
aggregates as requested, the unit, and an optional most-recent-value
interval carried as wire strings.  `types.ts` is absent from the sources;
the field list follows the spec's "sum/average/min/max, unit" plus the
optional `mostRecentQuantityDateInterval`. -/
structure StatsResponseRaw where
  averageQuantity : Option Int
  sumQuantity : Option Int
  minimumQuantity : Option Int
  maximumQuantity : Option Int
  unit : String
  mostRecentQuantityDateInterval : Option (DateInterval String)
deriving DecidableEq, Repr

/-- A normalized statistics response: the optional interval now holds `Date`
values; every other field is as in the raw response. -/
structure StatsResponse where
  averageQuantity : Option Int
  sumQuantity : Option Int
  minimumQuantity : Option Int
  maximumQuantity : Option Int
  unit : String
  mostRecentQuantityDateInterval : Option (DateInterval JSDate)
deriving DecidableEq, Repr

/-- Save options (`save`'s optional third argument): optional start and end
dates and optional metadata.  A present `Date` value may itself be the
Invalid Date.  The source fields are `start`/`end`/`metadata`; `end` is a
Lean keyword, so the second field is `finish`. -/
structure SaveOptions where
  start : Option JSDate
  finish : Option JSDate
  metadata : Option (List (String × String))
deriving DecidableEq, Repr

/-! ## The native bridge -/

/-- One dispatched bridge call, with the arguments it carried.  Operations
return the ordered list of these they made. -/
inductive BridgeCall where
  | getPreferredUnits (identifiers : List String)
  | getLastSamples (identifier : String) (limit : Int) (unit : String)
  | observe (identifier : String) (unit : String)
  | stopObserving (queryId : String)
  | requestAuthorization (write read : Finset String)
  | getRequestStatusForAuthorization (write read : Finset String)
  | getStatsBetween (identifier unit fromISO toISO : String) (options : List String)
  | save (identifier unit : String) (value : Int) (startISO endISO : String)
      (metadata : List (String × String))
deriving DecidableEq

/-- The native module (`NativeModules.ReactNativeHealthkit`), modelled as a
structure of pure response functions, one per method the embedded operations
call.  `observe` may reject; the query methods respond with values. -/
structure NativeModule where
  preferredUnits : String → String
  lastSamplesResp : String → Int → String → List QuantitySampleRaw
  observeResp : String → String → Except JsError String
  stopObservingResp : String → Bool
  requestAuthorizationResp : Finset String → Finset String → Bool
  requestStatusResp : Finset String → Finset String → Int
  statsResp : String → String → String → String → List String → StatsResponseRaw
  saveResp : String → String → Int → String → String →
      List (String × String) → Bool

/-! ## The shared event emitter -/

/-- State of the shared `NativeEventEmitter`: the registered listeners (each a
registration id paired with the identifier its closure filters on) and the id
the next `addListener` registration will receive. -/
structure EmitterState where
  listeners : List (Nat × String)
  nextId : Nat
deriving DecidableEq, Repr

/-- `EmitterSubscription.remove()` for the listener with the given id. -/
def removeListener (st : EmitterState) (i : Nat) : EmitterState :=
  { st with listeners := st.listeners.filter (fun p => p.1 != i) }

/-- An event on the shared `onQueryUpdated` stream: the bridge multiplexes
every observer through it. -/
structure HKEvent where
  samples : List QuantitySampleRaw
  typeIdentifier : String
deriving DecidableEq, Repr

/-- The listener closure registered by `on` (index.ios.tsx:108-118): given an
incoming event, `some payload` when the callback fires — with the deserialized
samples it is passed — and `none` when the event is filtered out because its
`typeIdentifier` differs from the subscription's identifier. -/
def onListener (identifier : String) (ev : HKEvent) : Option (List QuantitySample) :=
  if ev.typeIdentifier = identifier then some (ev.samples.map deserializeSample)
  else none

/-- Deliver one event to every registered listener: the registration ids whose
callbacks fire, each paired with the deserialized samples passed to it. -/
def dispatch (st : EmitterState) (ev : HKEvent) : List (Nat × List QuantitySample) :=
  st.listeners.filterMap (fun p => (onListener p.2 ev).map (fun out => (p.1, out)))

/-! ## Operations -/

/-- `getPreferredUnit` (index.ios.tsx:75-78): one `getPreferredUnits` bridge
call with a singleton identifier list, indexing the returned mapping at the
identifier. -/
def getPreferredUnit (native : NativeModule) (type : String) :
    List BridgeCall × String :=
  ([.getPreferredUnits [type]], native.preferredUnits type)

/-- JavaScript truthiness of an optional string: `undefined` and `""` are
falsy.  (An `HKUnit` wire value is a non-empty unit string such as `"count"`;
`types.ts` is absent from the sources.) -/
def truthyStr : Option String → Bool
  | none => false
  | some s => s != ""

/-- `unit || (await getPreferredUnit(identifier))`, the inline unit-defaulting
each query performs: a supplied truthy unit is used as-is with no bridge
call; otherwise one `getPreferredUnits` round-trip supplies it. -/
def resolveUnit (native : NativeModule) (identifier : String) (unit : Option String) :
    List BridgeCall × String :=
  if truthyStr unit then ([], unit.getD "") else getPreferredUnit native identifier

/-- `getLastSamples` (index.ios.tsx:92-100): the `limit` parameter defaults to
1 when omitted (`none`); the unit is resolved, the query dispatched, and each
raw sample deserialized. -/
def getLastSamples (native : NativeModule) (identifier : String)
    (limit : Option Int) (unit : Option String) :
    List BridgeCall × List QuantitySample :=
  let r := resolveUnit native identifier unit
  let lim := limit.getD 1
  let samples := native.lastSamplesResp identifier lim r.2
  (r.1 ++ [.getLastSamples identifier lim r.2],
    samples.map (fun s => deserializeSample s))

/-- `getLastSample` (index.ios.tsx:133-139): `getLastSamples` with limit 1,
then `samples[0]` — `none` (JavaScript `undefined`) when the list is empty. -/
def getLastSample (native : NativeModule) (identifier : String)
    (unit : Option String) :
    List BridgeCall × Option QuantitySample :=
  let r := getLastSamples native identifier (some 1) unit
  (r.1, r.2.head?)

/-- What `on` hands back on success: the local listener registration id the
unsubscribe closure will remove, and the server-issued query id it will stop. -/
structure Subscription where
  subId : Nat
  queryId : String
deriving DecidableEq, Repr

/-- `on` (index.ios.tsx:102-131): resolve the unit, register the listener on
the shared emitter, then ask the bridge to start observing.  If `observe`
rejects, the freshly registered listener is removed and the rejection
re-raised; on success the subscription is returned. -/
def on' (native : NativeModule) (st : EmitterState) (identifier : String)
    (unit : Option String) :
    List BridgeCall × EmitterState × Except JsError Subscription :=
  let r := resolveUnit native identifier unit
  let subId := st.nextId
  let st1 : EmitterState :=
    { listeners := st.listeners ++ [(subId, identifier)], nextId := st.nextId + 1 }
  match native.observeResp identifier r.2 with
  | .error e => (r.1 ++ [.observe identifier r.2], removeListener st1 subId, .error e)
  | .ok queryId => (r.1 ++ [.observe identifier r.2], st1, .ok ⟨subId, queryId⟩)

/-- The unsubscribe closure `on` returns (index.ios.tsx:127-130): remove the
local listener, then one `stopObserving` bridge call for the captured query
id, whose result is returned as the bridge reports it.  Nothing is
deduplicated across repeat calls. -/
def unsubscribe (native : NativeModule) (st : EmitterState) (sub : Subscription) :
    List BridgeCall × EmitterState × Bool :=
  ([.stopObserving sub.queryId], removeListener st sub.subId,
    native.stopObservingResp sub.queryId)

/-- `save` (index.ios.tsx:173-195): `options?.start || options?.end || new
Date()` and symmetrically for the end date (a `Date` object is always truthy,
so the fallbacks are presence-based); metadata defaults to `{}`.  The dates
are rendered with `toISOString`, which throws on an Invalid Date. -/
def save (native : NativeModule) (now : Int) (identifier unit : String)
    (value : Int) (options : Option SaveOptions) :
    List BridgeCall × Except JsError Bool :=
  let start : JSDate :=
    match options.bind SaveOptions.start, options.bind SaveOptions.finish with
    | some d, _ => d
    | none, some d => d
    | none, none => some now
  let finish : JSDate :=
    match options.bind SaveOptions.finish, options.bind SaveOptions.start with
    | some d, _ => d
    | none, some d => d
    | none, none => some now
  let metadata := (options.bind SaveOptions.metadata).getD []
  match toISOString start, toISOString finish with
  | .ok ss, .ok es =>
      ([.save identifier unit value ss es metadata],
        .ok (native.saveResp identifier unit value ss es metadata))
  | .error e, _ => ([], .error e)
  | .ok _, .error e => ([], .error e)

/-- `getStatsBetween` (index.ios.tsx:197-230): resolve the unit, default the
`to` date to the current time (a present `Date` is always truthy), dispatch
the query with both endpoints rendered by `toISOString`, and rebuild the
response, rewriting the optional `mostRecentQuantityDateInterval` to `Date`
values when present and leaving it absent when absent, spreading every other
raw field through unchanged. -/
def getStatsBetween (native : NativeModule) (now : Int) (identifier : String)
    (options : List String) (fromDate : JSDate) (toArg : Option JSDate)
    (unit : Option String) :
    List BridgeCall × Except JsError StatsResponse :=
  let r := resolveUnit native identifier unit
  let toDate : JSDate := match toArg with | some d => d | none => some now
  match toISOString fromDate, toISOString toDate with
  | .ok fs, .ok ts =>
      let raw := native.statsResp identifier r.2 fs ts options
      (r.1 ++ [.getStatsBetween identifier r.2 fs ts options],
        .ok { averageQuantity := raw.averageQuantity
              sumQuantity := raw.sumQuantity
              minimumQuantity := raw.minimumQuantity
              maximumQuantity := raw.maximumQuantity
              unit := raw.unit
              mostRecentQuantityDateInterval :=
                raw.mostRecentQuantityDateInterval.map
                  (fun i => ⟨newDate i.fromD, newDate i.toD⟩) })
  | .error e, _ => (r.1, .error e)
  | .ok _, .error e => (r.1, .error e)

/-- The permission-flattening reduce (index.ios.tsx:236-242 and 271-277):
fold the identifier list into a presence object, one `[cur]: true` key per
element.  A JavaScript object whose values are all `true` is its key set, so
the presence-map is modelled as a `Finset` of keys. -/
def flattenPermissions (l : List String) : Finset String :=
  l.foldl (fun obj cur => insert cur obj) ∅

/-- `requestAuthorization` (index.ios.tsx:232-245): flatten both identifier
lists (at the TS signature, `write` defaults to `[]`) and dispatch write-map
then read-map, the bridge's native argument order; the bridge's boolean is
returned unchanged. -/
def requestAuthorization (native : NativeModule) (read write : List String) :
    List BridgeCall × Bool :=
  let readPermissions := flattenPermissions read
  let writePermissions := flattenPermissions write
  ([.requestAuthorization writePermissions readPermissions],
    native.requestAuthorizationResp writePermissions readPermissions)

/-- `getRequestStatusForAuthorization` (index.ios.tsx:267-283): identical
flattening, dispatching to the request-status endpoint, whose numeric status
is returned unchanged. -/
def getRequestStatusForAuthorization (native : NativeModule)
    (read write : List String) :
    List BridgeCall × Int :=
  let readPermissions := flattenPermissions read
  let writePermissions := flattenPermissions write
  ([.getRequestStatusForAuthorization writePermissions readPermissions],
    native.requestStatusResp writePermissions readPermissions)

/-! ## Concrete instances

Closed bridge instances, emitter states and samples on which the development
is evaluated. -/

/-- The round-trip premise of the spec: a `Date` value that survives rendering
to ISO8601 with millisecond precision and reparsing.  An Invalid Date never
round-trips (it cannot even be rendered). -/
def roundTripsISO : JSDate → Prop
  | none => False
  | some t => parseISO (formatISO t) = some t

/-- A bridge whose responses all succeed. -/
def demoNative : NativeModule where
  preferredUnits := fun _ => "count"
  lastSamplesResp := fun _ _ _ => []
  observeResp := fun _ _ => .ok "query-1"
  stopObservingResp := fun _ => true
  requestAuthorizationResp := fun _ _ => true
  requestStatusResp := fun _ _ => 2
  statsResp := fun _ _ _ _ _ =>
    { averageQuantity := none
      sumQuantity := some 120
      minimumQuantity := none
      maximumQuantity := none
      unit := "count"
      mostRecentQuantityDateInterval := none }
  saveResp := fun _ _ _ _ _ _ => true

/-- A bridge whose start-observing call rejects. -/
def failingNative : NativeModule :=
  { demoNative with observeResp := fun _ _ => .error "observe failed" }

/-- A raw statistics response carrying a most-recent-value interval. -/
def rawStatsDemo : StatsResponseRaw :=
  { averageQuantity := some 60
    sumQuantity := some 120
    minimumQuantity := some 40
    maximumQuantity := some 80
    unit := "count"
    mostRecentQuantityDateInterval :=
      some ⟨"2024-01-01T00:00:00.000Z", "2024-01-02T00:00:00.000Z"⟩ }

/-- A bridge whose statistics response carries the interval of `rawStatsDemo`. -/
def statsNative : NativeModule :=
  { demoNative with statsResp := fun _ _ _ _ _ => rawStatsDemo }

/-- An emitter with two pre-existing listeners. -/
def demoEmitter : EmitterState :=
  { listeners := [(0, "heartRate"), (1, "heartRate")], nextId := 2 }

/-- A subscription owning registration id 0 and query id `"q0"`. -/
def demoSub : Subscription :=
  { subId := 0, queryId := "q0" }

/-- An event for `"heartRate"` carrying no samples. -/
def demoEvent : HKEvent :=
  { samples := [], typeIdentifier := "heartRate" }

/-- A raw sample whose date strings are not parseable as dates. -/
def badRawSample : QuantitySampleRaw :=
  { uuid := "b7"
    quantityType := "stepCount"
    quantity := 12
    unit := "count"
    metadata := []
    startDate := "not-a-date"
    endDate := "also-not-a-date" }

/-- A sample with valid millisecond-precision dates. -/
def demoSample : QuantitySample :=
  { uuid := "a1"
    quantityType := "stepCount"
    quantity := 120
    unit := "count"
    metadata := [("HKWasUserEntered", "1")]
    startDate := some 1704067200000
    endDate := some 1704070800000 }

/-- The statistics response `getStatsBetween` builds from `rawStatsDemo`. -/
def respDemo : StatsResponse :=
  { averageQuantity := some 60
    sumQuantity := some 120
    minimumQuantity := some 40
    maximumQuantity := some 80
    unit := "count"
    mostRecentQuantityDateInterval :=
      some ⟨newDate "2024-01-01T00:00:00.000Z", newDate "2024-01-02T00:00:00.000Z"⟩ }

/-! ## Helper lemmas -/

/-- A supplied truthy unit resolves to itself with no bridge call. -/
theorem resolveUnit_truthy (native : NativeModule) (identifier u : String)
    (hu : u ≠ "") : resolveUnit native identifier (some u) = ([], u) := by
  simp [resolveUnit, truthyStr, hu]

/-- An omitted unit resolves through one `getPreferredUnits` round-trip. -/
theorem resolveUnit_omitted (native : NativeModule) (identifier : String) :
    resolveUnit native identifier none =
      ([.getPreferredUnits [identifier]], native.preferredUnits identifier) := rfl

/-- The permission fold, over any accumulator, unions in the list's key set. -/
theorem flattenPermissions_foldl (l : List String) (acc : Finset String) :
    l.foldl (fun obj cur => insert cur obj) acc = acc ∪ l.toFinset := by
  induction l generalizing acc with
  | nil => simp
  | cons a l ih =>
      simp [List.foldl_cons, ih, Finset.insert_union, Finset.union_insert]

/-- The presence-map of a permission list is its key set. -/
theorem flattenPermissions_toFinset (l : List String) :
    flattenPermissions l = l.toFinset := by
  simpa using flattenPermissions_foldl l ∅

/-- Events delivered after a listener's removal never carry its id. -/
theorem dispatch_removeListener (st : EmitterState) (i : Nat) (ev : HKEvent)
    (p : Nat × List QuantitySample)
    (hp : p ∈ dispatch (removeListener st i) ev) : p.1 ≠ i := by
  simp only [dispatch, removeListener, List.mem_filterMap, List.mem_filter,
    Option.map_eq_some'] at hp
  obtain ⟨a, ⟨_, hai⟩, out, _, hpa⟩ := hp
  rw [← hpa]
  simpa using hai

/-! ## Claims -/

/-- Claim C3: `requestAuthorization` flattens each identifier list into a
presence-map — the empty list yields the empty map, `[A, B]` yields
`{A, B}`, the result is invariant under permutation and collapses
duplicates (it is the list's key set) — dispatches the write-map and
read-map to the bridge, and returns the bridge's boolean unchanged;
`getRequestStatusForAuthorization` flattens identically. -/
theorem claim_C3 (native : NativeModule) :
    flattenPermissions [] = (∅ : Finset String) ∧
    (∀ A B : String, flattenPermissions [A, B] = {A, B}) ∧
    (∀ l : List String, flattenPermissions l = l.toFinset) ∧
    (∀ l1 l2 : List String, l1.Perm l2 →
      flattenPermissions l1 = flattenPermissions l2) ∧
    (∀ read write : List String,
      requestAuthorization native read write =
        ([.requestAuthorization (flattenPermissions write)
            (flattenPermissions read)],
          native.requestAuthorizationResp (flattenPermissions write)
            (flattenPermissions read))) ∧
    (∀ read write : List String,
      getRequestStatusForAuthorization native read write =
        ([.getRequestStatusForAuthorization (flattenPermissions write)
            (flattenPermissions read)],
          native.requestStatusResp (flattenPermissions write)
            (flattenPermissions read))) := by
  refine ⟨rfl, ?_, flattenPermissions_toFinset, ?_, fun _ _ => rfl, fun _ _ => rfl⟩
  · intro A B
    simp [flattenPermissions_toFinset]
  · intro l1 l2 hperm
    rw [flattenPermissions_toFinset, flattenPermissions_toFinset]
    exact List.toFinset_eq_of_perm l1 l2 hperm

/-- Claim C3 witness: the flattening is order-independent on a concrete pair
of permuted lists. -/
theorem claim_C3_witness :
    flattenPermissions ["stepCount", "heartRate"] =
      flattenPermissions ["heartRate", "stepCount"] :=
  (claim_C3 demoNative).2.2.2.1 ["stepCount", "heartRate"]
    ["heartRate", "stepCount"] (List.Perm.swap "heartRate" "stepCount" [])

/-- Claim C4 counterexample: on a raw sample whose date strings are
unparseable, deserialization does not fail — it returns a sample, whose date
fields are Invalid Dates. -/
theorem claim_C4_counterexample :
    parseISO badRawSample.startDate = none ∧
    parseISO badRawSample.endDate = none ∧
    deserializeSampleE badRawSample =
      Except.ok (deserializeSample badRawSample) := by
  refine ⟨?_, ?_, rfl⟩ <;> decide

/-- Claim C4 (amended): for every raw sample whose startDate or endDate
string is not parseable, sample deserialization does not fail —
`deserializeSample` succeeds, and each date field parsed from an unparseable
string is an Invalid Date value. -/
theorem claim_C4_amended (raw : QuantitySampleRaw)
    (h : parseISO raw.startDate = none ∨ parseISO raw.endDate = none) :
    deserializeSampleE raw = Except.ok (deserializeSample raw) ∧
    (parseISO raw.startDate = none →
      (deserializeSample raw).startDate = none) ∧
    (parseISO raw.endDate = none →
      (deserializeSample raw).endDate = none) :=
  ⟨rfl, fun hs => by simp [deserializeSample, newDate, hs],
    fun he => by simp [deserializeSample, newDate, he]⟩

/-- Claim C4 witness: the amended claim at the concrete unparseable sample. -/
theorem claim_C4_witness :
    deserializeSampleE badRawSample =
      Except.ok (deserializeSample badRawSample) ∧
    (deserializeSample badRawSample).startDate = none ∧
    (deserializeSample badRawSample).endDate = none :=
  ⟨(claim_C4_amended badRawSample (Or.inl (by decide))).1,
    (claim_C4_amended badRawSample (Or.inl (by decide))).2.1 (by decide),
    (claim_C4_amended badRawSample (Or.inr (by decide))).2.2 (by decide)⟩

/-- Claim C9: in `save`, the start date sent to the bridge defaults to
`options.end` when `options.start` is omitted and the end date defaults to
`options.start` when `options.end` is omitted — so with exactly one endpoint
supplied the bridge receives identical start and end ISO strings; with both
omitted each defaults to the current time, and omitted metadata defaults to
the empty object. -/
theorem claim_C9 (native : NativeModule) (now : Int) (identifier unit : String)
    (value : Int) (e s : Int) (md : List (String × String)) :
    save native now identifier unit value (some ⟨none, some (some e), some md⟩) =
      ([.save identifier unit value (formatISO e) (formatISO e) md],
        .ok (native.saveResp identifier unit value (formatISO e)
          (formatISO e) md)) ∧
    save native now identifier unit value (some ⟨some (some s), none, some md⟩) =
      ([.save identifier unit value (formatISO s) (formatISO s) md],
        .ok (native.saveResp identifier unit value (formatISO s)
          (formatISO s) md)) ∧
    save native now identifier unit value (some ⟨none, none, none⟩) =
      ([.save identifier unit value (formatISO now) (formatISO now) []],
        .ok (native.saveResp identifier unit value (formatISO now)
          (formatISO now) [])) ∧
    save native now identifier unit value none =
      ([.save identifier unit value (formatISO now) (formatISO now) []],
        .ok (native.saveResp identifier unit value (formatISO now)
          (formatISO now) [])) :=
  ⟨rfl, rfl, rfl, rfl⟩

/-- Claim C10: `getLastSample` is `getLastSamples` with limit 1 followed by
taking the head of the list — `none` rather than an error when the bridge
returns no samples — and `getLastSamples` itself defaults an omitted limit
to 1. -/
theorem claim_C10 (native : NativeModule) (identifier : String)
    (unit : Option String) :
    getLastSample native identifier unit =
      ((getLastSamples native identifier (some 1) unit).1,
        (getLastSamples native identifier (some 1) unit).2.head?) ∧
    (∀ u' : Option String,
      getLastSamples native identifier none u' =
        getLastSamples native identifier (some 1) u') ∧
    (native.lastSamplesResp identifier 1
        (resolveUnit native identifier unit).2 = [] →
      (getLastSample native identifier unit).2 = none) := by
  refine ⟨rfl, fun _ => rfl, ?_⟩
  intro h
  simp [getLastSample, getLastSamples, h]

/-- Claim C10 witness: on a bridge returning no samples, `getLastSample`
resolves to `none`. -/
theorem claim_C10_witness :
    (getLastSample demoNative "stepCount" (some "count")).2 = none :=
  (claim_C10 demoNative "stepCount" (some "count")).2.2 rfl

/-- Claim C1: every query operation taking an optional unit (`getLastSamples`,
`getLastSample`, `on`, `getStatsBetween`) passes an explicitly supplied unit
through to the bridge unchanged with zero preferred-unit calls, and when the
unit is omitted makes exactly one `getPreferredUnits` bridge call for that
identifier and uses its result as the unit.  (An `HKUnit` value is a
non-empty unit string, hence the `u ≠ ""` premise.) -/
theorem claim_C1 (native : NativeModule) (st : EmitterState)
    (identifier u : String) (limit : Option Int) (options : List String)
    (f : Int) (tv : Option Int) (now : Int) (hu : u ≠ "") :
    (getLastSamples native identifier limit (some u)).1 =
      [.getLastSamples identifier (limit.getD 1) u] ∧
    (getLastSamples native identifier limit none).1 =
      [.getPreferredUnits [identifier],
        .getLastSamples identifier (limit.getD 1)
          (native.preferredUnits identifier)] ∧
    (getLastSample native identifier (some u)).1 =
      [.getLastSamples identifier 1 u] ∧
    (getLastSample native identifier none).1 =
      [.getPreferredUnits [identifier],
        .getLastSamples identifier 1 (native.preferredUnits identifier)] ∧
    (on' native st identifier (some u)).1 = [.observe identifier u] ∧
    (on' native st identifier none).1 =
      [.getPreferredUnits [identifier],
        .observe identifier (native.preferredUnits identifier)] ∧
    (getStatsBetween native now identifier options (some f) (tv.map some)
        (some u)).1 =
      [.getStatsBetween identifier u (formatISO f) (formatISO (tv.getD now))
        options] ∧
    (getStatsBetween native now identifier options (some f) (tv.map some)
        none).1 =
      [.getPreferredUnits [identifier],
        .getStatsBetween identifier (native.preferredUnits identifier)
          (formatISO f) (formatISO (tv.getD now)) options] := by
  have hres := resolveUnit_truthy native identifier u hu
  refine ⟨?_, ?_, ?_, ?_, ?_, ?_, ?_, ?_⟩
  · simp [getLastSamples, hres]
  · simp [getLastSamples, resolveUnit_omitted]
  · simp [getLastSample, getLastSamples, hres]
  · simp [getLastSample, getLastSamples, resolveUnit_omitted]
  · cases hobs : native.observeResp identifier u with
    | error e => simp [on', hres, hobs]
    | ok q => simp [on', hres, hobs]
  · cases hobs : native.observeResp identifier
      (native.preferredUnits identifier) with
    | error e => simp [on', resolveUnit_omitted, hobs]
    | ok q => simp [on', resolveUnit_omitted, hobs]
  · cases tv with
    | none => simp [getStatsBetween, hres, toISOString]
    | some t => simp [getStatsBetween, hres, toISOString]
  · cases tv with
    | none => simp [getStatsBetween, resolveUnit_omitted, toISOString]
    | some t => simp [getStatsBetween, resolveUnit_omitted, toISOString]

/-- Claim C1 witness: a concrete explicit-unit query dispatches exactly the
data query, with that unit. -/
theorem claim_C1_witness :
    (getLastSamples demoNative "stepCount" none (some "count")).1 =
      [.getLastSamples "stepCount" 1 "count"] :=
  (claim_C1 demoNative demoEmitter "stepCount" "count" none [] 0 none 0
    (by decide)).1

/-- Claim C2: when the bridge's start-observing call rejects, `on` removes
the locally registered event listener before the rejection propagates: the
caller receives the rejection, and the resulting emitter state retains no
listener with the subscription's registration id. -/
theorem claim_C2 (native : NativeModule) (st : EmitterState)
    (identifier : String) (unit : Option String) (e : JsError)
    (hobs : native.observeResp identifier
        (resolveUnit native identifier unit).2 = Except.error e) :
    (on' native st identifier unit).2.2 = Except.error e ∧
    (on' native st identifier unit).2.1.listeners =
      st.listeners.filter (fun p => p.1 != st.nextId) := by
  constructor
  · simp [on', hobs]
  · simp [on', hobs, removeListener, List.filter_append]

/-- Claim C2 witness: a concrete rejecting bridge leaves no listener for the
failed subscription behind. -/
theorem claim_C2_witness :
    (on' failingNative demoEmitter "stepCount" (some "count")).2.2 =
      Except.error "observe failed" ∧
    (on' failingNative demoEmitter "stepCount" (some "count")).2.1.listeners =
      demoEmitter.listeners.filter (fun p => p.1 != demoEmitter.nextId) :=
  claim_C2 failingNative demoEmitter "stepCount" (some "count")
    "observe failed" rfl

/-- Claim C5: serializing a sample whose dates round-trip through ISO8601
with millisecond precision and deserializing yields the original sample;
and `deserializeSample` replaces only the two date-string fields (with
parsed `Date` values) and leaves every other field unchanged. -/
theorem claim_C5 (s : QuantitySample)
    (h1 : roundTripsISO s.startDate) (h2 : roundTripsISO s.endDate) :
    (serializeSample s).map deserializeSample = Except.ok s ∧
    (∀ raw : QuantitySampleRaw,
      (deserializeSample raw).uuid = raw.uuid ∧
      (deserializeSample raw).quantityType = raw.quantityType ∧
      (deserializeSample raw).quantity = raw.quantity ∧
      (deserializeSample raw).unit = raw.unit ∧
      (deserializeSample raw).metadata = raw.metadata ∧
      (deserializeSample raw).startDate = newDate raw.startDate ∧
      (deserializeSample raw).endDate = newDate raw.endDate) := by
  obtain ⟨uuid, qt, q, u, md, sd, ed⟩ := s
  refine ⟨?_, fun raw => ⟨rfl, rfl, rfl, rfl, rfl, rfl, rfl⟩⟩
  cases sd with
  | none => exact absurd h1 (by simp [roundTripsISO])
  | some a =>
      cases ed with
      | none => exact absurd h2 (by simp [roundTripsISO])
      | some b =>
          have ha : parseISO (formatISO a) = some a := h1
          have hb : parseISO (formatISO b) = some b := h2
          show Except.ok (deserializeSample
            { uuid := uuid, quantityType := qt, quantity := q, unit := u,
              metadata := md, startDate := formatISO a,
              endDate := formatISO b }) = _
          simp [deserializeSample, newDate, ha, hb]

/-- Claim C5 witness: a concrete sample with millisecond-precision dates
survives the serialize-then-deserialize round trip. -/
theorem claim_C5_witness :
    (serializeSample demoSample).map deserializeSample =
      Except.ok demoSample :=
  (claim_C5 demoSample (by simp only [demoSample, roundTripsISO]; decide)
    (by simp only [demoSample, roundTripsISO]; decide)).1

/-- Claim C6: after a successful `on` subscription, delivering any event to
the shared emitter invokes the new subscription's callback exactly when the
event's `typeIdentifier` equals the subscription's identifier — with the
event's samples deserialized — and leaves the deliveries to the pre-existing
listeners unchanged. -/
theorem claim_C6 (native : NativeModule) (st : EmitterState)
    (identifier : String) (unit : Option String) (ev : HKEvent) (qid : String)
    (hobs : native.observeResp identifier
        (resolveUnit native identifier unit).2 = Except.ok qid) :
    dispatch (on' native st identifier unit).2.1 ev =
      dispatch st ev ++
        (if ev.typeIdentifier = identifier
          then [(st.nextId, ev.samples.map deserializeSample)] else []) := by
  have h1 : (on' native st identifier unit).2.1 =
      { listeners := st.listeners ++ [(st.nextId, identifier)],
        nextId := st.nextId + 1 } := by
    simp [on', hobs]
  rw [h1]
  by_cases h : ev.typeIdentifier = identifier <;>
    simp [dispatch, onListener, List.filterMap_append, h]

/-- Claim C6 witness: a concrete event for a different identifier leaves the
new subscription silent while the matching pre-existing listener still
fires. -/
theorem claim_C6_witness :
    dispatch (on' demoNative demoEmitter "stepCount" (some "count")).2.1
        demoEvent =
      dispatch demoEmitter demoEvent ++
        (if demoEvent.typeIdentifier = "stepCount"
          then [(demoEmitter.nextId, demoEvent.samples.map deserializeSample)]
          else []) :=
  claim_C6 demoNative demoEmitter "stepCount" (some "count") demoEvent
    "query-1" rfl

/-- Claim C7: `getStatsBetween` passes sum/average/min/max and the unit of
the raw statistics response through unchanged, rewrites the optional
`mostRecentQuantityDateInterval` field's wire strings to `Date` values when
the field is present, and leaves the field entirely absent when it is absent
in the raw response. -/
theorem claim_C7 (native : NativeModule) (now : Int) (identifier : String)
    (options : List String) (f : Int) (tv : Option Int) (unit : Option String)
    (resp : StatsResponse)
    (hresp : (getStatsBetween native now identifier options (some f)
        (tv.map some) unit).2 = Except.ok resp) :
    resp.averageQuantity = (native.statsResp identifier
      (resolveUnit native identifier unit).2 (formatISO f)
      (formatISO (tv.getD now)) options).averageQuantity ∧
    resp.sumQuantity = (native.statsResp identifier
      (resolveUnit native identifier unit).2 (formatISO f)
      (formatISO (tv.getD now)) options).sumQuantity ∧
    resp.minimumQuantity = (native.statsResp identifier
      (resolveUnit native identifier unit).2 (formatISO f)
      (formatISO (tv.getD now)) options).minimumQuantity ∧
    resp.maximumQuantity = (native.statsResp identifier
      (resolveUnit native identifier unit).2 (formatISO f)
      (formatISO (tv.getD now)) options).maximumQuantity ∧
    resp.unit = (native.statsResp identifier
      (resolveUnit native identifier unit).2 (formatISO f)
      (formatISO (tv.getD now)) options).unit ∧
    ((native.statsResp identifier (resolveUnit native identifier unit).2
        (formatISO f) (formatISO (tv.getD now))
        options).mostRecentQuantityDateInterval = none →
      resp.mostRecentQuantityDateInterval = none) ∧
    (∀ i : DateInterval String,
      (native.statsResp identifier (resolveUnit native identifier unit).2
        (formatISO f) (formatISO (tv.getD now))
        options).mostRecentQuantityDateInterval = some i →
      resp.mostRecentQuantityDateInterval =
        some ⟨newDate i.fromD, newDate i.toD⟩) := by
  cases tv with
  | none =>
      simp only [getStatsBetween, toISOString, Option.map_none', Option.getD] at hresp ⊢
      rw [Except.ok.injEq] at hresp
      subst hresp
      refine ⟨rfl, rfl, rfl, rfl, rfl, ?_, ?_⟩
      · intro h; simp [h]
      · intro i hi; simp [hi]
  | some t =>
      simp only [getStatsBetween, toISOString, Option.map_some',
        Option.getD] at hresp ⊢
      rw [Except.ok.injEq] at hresp
      subst hresp
      refine ⟨rfl, rfl, rfl, rfl, rfl, ?_, ?_⟩
      · intro h; simp [h]
      · intro i hi; simp [hi]

/-- Claim C7 witness: on a concrete raw response carrying the interval, the
normalized response holds the parsed `Date` values. -/
theorem claim_C7_witness :
    respDemo.mostRecentQuantityDateInterval =
      some ⟨newDate "2024-01-01T00:00:00.000Z",
        newDate "2024-01-02T00:00:00.000Z"⟩ :=
  (claim_C7 statsNative 0 "stepCount" [] 0 none (some "count") respDemo
      rfl).2.2.2.2.2.2
    ⟨"2024-01-01T00:00:00.000Z", "2024-01-02T00:00:00.000Z"⟩ rfl

/-- Claim C8: unsubscribing twice neither throws nor re-invokes the callback;
each call removes the local listener and issues a `stopObserving` bridge call
with the same query id, returning the bridge's result as reported, without
local deduplication of the repeat call. -/
theorem claim_C8 (native : NativeModule) (st : EmitterState)
    (sub : Subscription) :
    (unsubscribe native st sub).1 = [.stopObserving sub.queryId] ∧
    (unsubscribe native (unsubscribe native st sub).2.1 sub).1 =
      [.stopObserving sub.queryId] ∧
    (unsubscribe native st sub).2.2 =
      native.stopObservingResp sub.queryId ∧
    (unsubscribe native (unsubscribe native st sub).2.1 sub).2.2 =
      native.stopObservingResp sub.queryId ∧
    (∀ ev : HKEvent, ∀ p : Nat × List QuantitySample,
      p ∈ dispatch (unsubscribe native st sub).2.1 ev → p.1 ≠ sub.subId) ∧
    (∀ ev : HKEvent, ∀ p : Nat × List QuantitySample,
      p ∈ dispatch (unsubscribe native
        (unsubscribe native st sub).2.1 sub).2.1 ev → p.1 ≠ sub.subId) := by
  refine ⟨rfl, rfl, rfl, rfl, ?_, ?_⟩
  · intro ev p hp
    exact dispatch_removeListener st sub.subId ev p hp
  · intro ev p hp
    exact dispatch_removeListener _ sub.subId ev p hp

/-- Claim C8 witness: a delivery surviving a concrete unsubscribe belongs to
a different registration than the unsubscribed one. -/
theorem claim_C8_witness :
    ((1 : Nat), ([] : List QuantitySample)).1 ≠ demoSub.subId :=
  (claim_C8 demoNative demoEmitter demoSub).2.2.2.2.1 demoEvent (1, [])
    (by decide)

end Healthkit
